import Mathlib

/-!
Shallow embedding of the git-operations core of `eureka` (`src/git.rs`).

The embedding models:
* the `Git` handle (`repo : Option<git2::Repository>`, `ssh_key : String`);
* the repository state touched by the five operations (object database,
  branch references, symbolic HEAD, the staging index, the working tree,
  the configured signature, the configured remotes);
* the credential negotiation closure inside `with_credentials`, with its
  three one-shot flags.

Machine-level conventions:
* object ids (`git2::Oid`) are modelled as indices into the object
  database list, so a freshly written commit gets the id `objects.length`;
* a tree object is modelled by the list of staged paths it snapshots;
* a Rust `panic!`/`unwrap()`-on-`None` is the `.panic` outcome of
  `POutcome`, distinct from returning an `Err` value;
* calls into libgit2 that the source cannot observe failing in the claims
  under study (`index.write`, `checkout_tree` on a present object,
  `set_head` on a well-formed refname, `Cred::ssh_key` construction) are
  modelled by their success path, with the failure paths that the source
  *does* branch on (head lookup, commit lookup, branch creation, revparse,
  signature lookup, remote lookup, credential-helper lookup) kept explicit.
-/

namespace Eureka

/-- Outcome of calling a Rust function: a returned `Ok`, a returned `Err`,
or a process abort (`panic!` / `Option::unwrap` on `None`). -/
inductive POutcome (ε : Type) (α : Type) where
  | ok : α → POutcome ε α
  | error : ε → POutcome ε α
  | panic : POutcome ε α
deriving DecidableEq, Repr

/-- The subset of `git2::ErrorClass` values the source inspects or produces. -/
inductive ErrorClass where
  | generic
  | reference
  | config
  | repository
deriving DecidableEq, Repr

/-- The subset of `git2::ErrorCode` values the source inspects or produces. -/
inductive ErrorCode where
  | generic
  | notFound
  | exists'
  | unbornBranch
deriving DecidableEq, Repr

/-- A `git2::Error`: class, code and message. -/
structure GitError where
  cls : ErrorClass
  code : ErrorCode
  message : String
deriving DecidableEq, Repr

/-- `git2::Error::from_str`: a generic error carrying only a message. -/
def GitError.from_str (msg : String) : GitError :=
  { cls := .generic, code := .generic, message := msg }

/-- Error returned by `git2::Repository::head()` when HEAD's symbolic target
does not exist (repository with no commits / unborn branch). -/
def unbornHeadErr : GitError :=
  { cls := .reference, code := .unbornBranch, message := "reference not found" }

/-- Error returned by `git2::Repository::branch` when the branch reference
already exists (`ErrorClass::Reference`, `ErrorCode::Exists`). -/
def branchExistsErr : GitError :=
  { cls := .reference, code := .exists', message := "failed to write reference: a reference with that name already exists" }

/-- Error returned by `revparse_single` when the refname does not resolve. -/
def revparseNotFoundErr : GitError :=
  { cls := .reference, code := .notFound, message := "revspec not found" }

/-- Error returned by `find_commit` when the oid is not in the object database. -/
def commitNotFoundErr : GitError :=
  { cls := .repository, code := .notFound, message := "object not found" }

/-- Error returned by `repo.signature()` when `user.name`/`user.email` are unset. -/
def signatureErr : GitError :=
  { cls := .config, code := .notFound, message := "config value was not found" }

/-- Error returned by `find_remote("origin")` when no such remote is configured. -/
def remoteNotFoundErr : GitError :=
  { cls := .config, code := .notFound, message := "remote origin does not exist" }

/-- Error returned by `Cred::credential_helper` when the configured helper
produces no credentials. -/
def helperFailedErr : GitError :=
  { cls := .config, code := .notFound, message := "failed to acquire credentials from helper" }

/-- A commit signature (`user.name` / `user.email`). -/
structure Sig where
  name : String
  email : String
deriving DecidableEq, Repr

/-- A tree object: the snapshot of staged paths it records. -/
abbrev Tree := List String

/-- A commit object: tree, parent oids, message, author and committer. -/
structure CommitObj where
  tree : Tree
  parents : List Nat
  message : String
  author : Sig
  committer : Sig
deriving DecidableEq, Repr

/-- The repository configuration visible to the source: the credential
helper (`Cred::credential_helper` consults it with the url and the
challenge username, and yields a username/password pair when it succeeds). -/
structure Config where
  helper : String → Option String → Option (String × String)

/-- The on-disk repository state touched by the five operations.
`objects` is the object database (a commit's oid is its index);
`branches` maps full refnames `refs/heads/<name>` to commit oids;
`headRef` is the symbolic target of HEAD (the source only ever runs with an
attached HEAD);
`index` is the set of staged paths; `workTree` the checked-out snapshot;
`branchFault` injects an environmental failure (e.g. I/O) into branch
creation, `none` meaning creation succeeds whenever the branch is new. -/
structure Repo where
  objects : List CommitObj
  branches : List (String × Nat)
  headRef : String
  index : List String
  workTree : Tree
  sig : Option Sig
  remotes : List String
  cfg : Config
  branchFault : Option GitError

/-- The `Git` struct: an optional open repository handle and the ssh key path. -/
structure Git where
  repo : Option Repo
  ssh_key : String

/-- `repo.head()`, resolved to its target oid. On an attached HEAD this
resolves the symbolic reference through `branches`; if the target branch
does not exist (no commits yet), libgit2 reports an unborn-branch
reference error. The returned direct reference always has `Some` target,
so `head.target()` and `.resolve()` are the identity on the result. -/
def Repo.head (r : Repo) : Except GitError Nat :=
  match r.branches.lookup r.headRef with
  | some oid => .ok oid
  | none => .error unbornHeadErr

/-- `repo.find_commit(oid)`. -/
def Repo.findCommit (r : Repo) (oid : Nat) : Except GitError CommitObj :=
  match r.objects[oid]? with
  | some c => .ok c
  | none => .error commitNotFoundErr

/-- `repo.branch(branch_name, &commit, false)`: create `refs/heads/<name>`
at the given commit. Fails with `(Reference, Exists)` when the reference
already exists; an injected `branchFault` models any other creation
failure. -/
def Repo.branch (r : Repo) (branch_name : String) (oid : Nat) :
    Except GitError Unit × Repo :=
  if (r.branches.lookup ("refs/heads/" ++ branch_name)).isSome then
    (.error branchExistsErr, r)
  else
    match r.branchFault with
    | some e => (.error e, r)
    | none => (.ok (), { r with branches := r.branches ++ [("refs/heads/" ++ branch_name, oid)] })

/-- `repo.revparse_single(refname)` for the refnames the source uses
(`refs/heads/<name>`): resolves the reference to its object. -/
def Repo.revparse_single (r : Repo) (refname : String) : Except GitError Nat :=
  match r.branches.lookup refname with
  | some oid => .ok oid
  | none => .error revparseNotFoundErr

/-- `repo.checkout_tree(&obj, None)`: make the working tree match the
object's snapshot. -/
def Repo.checkout_tree (r : Repo) (oid : Nat) : Except GitError Repo :=
  match r.objects[oid]? with
  | some c => .ok { r with workTree := c.tree }
  | none => .error commitNotFoundErr

/-- `repo.set_head(refname)`. -/
def Repo.set_head (r : Repo) (refname : String) : Repo :=
  { r with headRef := refname }

/-- `repo.signature()`: the configured `user.name`/`user.email` identity. -/
def Repo.signature (r : Repo) : Except GitError Sig :=
  match r.sig with
  | some s => .ok s
  | none => .error signatureErr

/-- `find_last_commit`: `repo.head()?.resolve()?.peel(ObjectType::Commit)?`,
then `into_commit`. Returns the oid of the commit HEAD points at. -/
def find_last_commit (r : Repo) : Except GitError Nat :=
  match r.head with
  | .error e => .error e
  | .ok oid =>
    match r.objects[oid]? with
    | some _ => .ok oid
    | none => .error (GitError.from_str "Couldn't find commit")

/-! ### The credential negotiator (`with_credentials`) -/

/-- The `git2::CredentialType` bitflags the source consults:
`USERNAME`, `SSH_KEY`, `USER_PASS_PLAINTEXT`, `DEFAULT`. -/
structure CredentialType where
  username : Bool
  ssh_key : Bool
  user_pass_plaintext : Bool
  default_cred : Bool
deriving DecidableEq, Repr

/-- A credential object produced by one of the three methods. -/
inductive Cred where
  | sshKey (username : String) (path : String)
  | userpassPlaintext (username password : String)
  | defaultCred
deriving DecidableEq, Repr

/-- `git2::Cred::credential_helper(&config, url, username)`: asks the
configured helper for a username/password pair; errors when it yields none. -/
def Cred.credential_helper (config : Config) (url : String)
    (username : Option String) : Except GitError Cred :=
  match config.helper url username with
  | some (u, p) => .ok (Cred.userpassPlaintext u p)
  | none => .error helperFailedErr

/-- The three one-shot flags of `with_credentials`, freshly initialized to
`false` at the start of each push call. -/
structure Flags where
  tried_sshkey : Bool
  tried_cred_helper : Bool
  tried_default : Bool
deriving DecidableEq, Repr

/-- Fresh flag state at the start of a push call. -/
def Flags.fresh : Flags := ⟨false, false, false⟩

/-- One authentication challenge `(url, username, allowed)` issued by the
push transport. -/
structure Challenge where
  url : String
  username : Option String
  allowed : CredentialType
deriving DecidableEq, Repr

/-- The credential callback closure inside `with_credentials`, acting on the
flag state. Mirrors the source branch by branch:
 1. `allowed.contains(USERNAME)` → `Err("No username specified in remote URL")`;
 2. `allowed.contains(SSH_KEY) && !tried_sshkey` → set the flag, then
    `username.unwrap()` (a process abort when the challenge carries no
    username) and `Cred::ssh_key(username, None, path, None)`;
 3. `allowed.contains(USER_PASS_PLAINTEXT) && !tried_cred_helper` → set the
    flag, return `Cred::credential_helper(&config, url, username)`;
 4. `allowed.contains(DEFAULT) && !tried_default` → set the flag, return
    `Cred::default()`;
 5. otherwise `Err("No authentication method succeeded")`. -/
def credCallback (ssh_key : String) (config : Config) (st : Flags)
    (ch : Challenge) : Flags × POutcome GitError Cred :=
  if ch.allowed.username then
    (st, .error (GitError.from_str "No username specified in remote URL"))
  else if ch.allowed.ssh_key && !st.tried_sshkey then
    let st' := { st with tried_sshkey := true }
    match ch.username with
    | none => (st', .panic)
    | some u => (st', .ok (Cred.sshKey u ssh_key))
  else if ch.allowed.user_pass_plaintext && !st.tried_cred_helper then
    let st' := { st with tried_cred_helper := true }
    match Cred.credential_helper config ch.url ch.username with
    | .ok c => (st', .ok c)
    | .error e => (st', .error e)
  else if ch.allowed.default_cred && !st.tried_default then
    ({ st with tried_default := true }, .ok Cred.defaultCred)
  else
    (st, .error (GitError.from_str "No authentication method succeeded"))

/-- The trace of callback outcomes over a sequence of challenges, threading
the flag state: the transport re-challenges after every produced credential
is rejected by the remote, so each challenge in the list invokes the
callback once. -/
def runNegotiator (ssh_key : String) (config : Config) :
    Flags → List Challenge → List (POutcome GitError Cred)
  | _, [] => []
  | st, ch :: rest =>
    (credCallback ssh_key config st ch).2 ::
      runNegotiator ssh_key config (credCallback ssh_key config st ch).1 rest

/-- The transport's use of the credential callback during `remote.push`:
challenges are issued in order; a produced credential is tested against
`accept` (the remote); the first accepted credential lets the push proceed,
a returned error fails the push with that error, a panic aborts, and a
transport that stops challenging lets the push complete. -/
def transportRun (ssh_key : String) (config : Config) (accept : Cred → Bool) :
    Flags → List Challenge → POutcome GitError Unit
  | _, [] => .ok ()
  | st, ch :: rest =>
    match credCallback ssh_key config st ch with
    | (st', .ok c) =>
      if accept c then .ok () else transportRun ssh_key config accept st' rest
    | (_, .error e) => .error e
    | (_, .panic) => .panic

/-! ### The five operations of `GitManagement` -/

/-- `Git::init(repo_path)`: `git2::Repository::open(path).map(|repo| self.repo = Some(repo))`.
`fs` models what `Repository::open` yields at each path. On failure the
handle is untouched. -/
def Git.init (g : Git) (fs : String → Except GitError Repo) (repo_path : String) :
    Except GitError Unit × Git :=
  match fs repo_path with
  | .ok repo => (.ok (), { g with repo := some repo })
  | .error e => (.error e, g)

/-- The tail of `checkout_branch` after branch creation: revparse
`refs/heads/<name>`, check out its tree, set HEAD to the refname. -/
def Repo.checkoutBranchTail (r : Repo) (branch_name : String) :
    Except GitError Unit × Repo :=
  let refname := "refs/heads/" ++ branch_name
  match r.revparse_single refname with
  | .error e => (.error e, r)
  | .ok obj =>
    match r.checkout_tree obj with
    | .error e => (.error e, r)
    | .ok r2 => (.ok (), r2.set_head refname)

/-- The body of `Git::checkout_branch` on the open repository: resolve HEAD
to its commit, create the branch (ignoring only a `(Reference, Exists)`
creation failure), then revparse / checkout / set_head. -/
def Repo.checkout_branch (r : Repo) (branch_name : String) :
    Except GitError Unit × Repo :=
  match r.head with
  | .error e => (.error e, r)
  | .ok oid =>
    match r.findCommit oid with
    | .error e => (.error e, r)
    | .ok _ =>
      match r.branch branch_name oid with
      | (.error err, r1) =>
        if !(err.cls == ErrorClass.reference && err.code == ErrorCode.exists') then
          (.error err, r1)
        else
          r1.checkoutBranchTail branch_name
      | (.ok _, r1) => r1.checkoutBranchTail branch_name

/-- The body of `Git::add` on the open repository: `index.add_path("README.md")`
followed by `index.write()`. (`add_path` on an already staged path replaces
the entry.) -/
def Repo.add (r : Repo) : Except GitError Unit × Repo :=
  let idx := if r.index.contains "README.md" then r.index else r.index ++ ["README.md"]
  (.ok (), { r with index := idx })

/-- Replace the target of the reference `name` (the ref HEAD points to)
with `oid` — the `update_ref = Some("HEAD")` part of `repo.commit`. -/
def updateRef (bs : List (String × Nat)) (name : String) (oid : Nat) :
    List (String × Nat) :=
  bs.map (fun p => bif p.1 == name then (name, oid) else p)

/-- The body of `Git::commit` on the open repository, in source order:
get the index, the configured signature, `index.write_tree()`,
`find_last_commit`, `find_tree(oid)` (the tree just written, always
present), then `repo.commit(Some("HEAD"), &sig, &sig, subject, &tree,
&[&parent])`: the new commit is appended to the object database and the
ref HEAD points to is advanced to it. Returns the new commit's oid. -/
def Repo.commitOp (r : Repo) (subject : String) : Except GitError Nat × Repo :=
  match r.signature with
  | .error e => (.error e, r)
  | .ok signature =>
    let tree := r.index
    match find_last_commit r with
    | .error e => (.error e, r)
    | .ok parent =>
      let c : CommitObj :=
        { tree := tree, parents := [parent], message := subject,
          author := signature, committer := signature }
      let oid := r.objects.length
      (.ok oid,
        { r with objects := r.objects ++ [c],
                 branches := updateRef r.branches r.headRef oid })

/-- The body of `Git::push` on the open repository. `with_credentials`
reads the config, initializes the three one-shot flags and hands the
credential callback to the closure, which looks up the remote `origin`,
binds the callback as the transport's credential callback and pushes the
single refspec `refs/heads/<name>:refs/heads/<name>`. The second component
records the refspecs handed to `remote.push` (empty when the push never
reached the remote). `transport` and `accept` model the remote's challenge
sequence and its acceptance of produced credentials. -/
def Repo.pushOp (r : Repo) (ssh_key : String) (branch_name : String)
    (transport : List Challenge) (accept : Cred → Bool) :
    POutcome GitError Unit × List String :=
  let config := r.cfg
  if r.remotes.contains "origin" then
    (transportRun ssh_key config accept Flags.fresh transport,
      ["refs/heads/" ++ branch_name ++ ":refs/heads/" ++ branch_name])
  else
    (.error remoteNotFoundErr, [])

/-- Lift a returned `Result` into the panic-aware outcome type. -/
def exceptToP {ε α : Type} : Except ε α → POutcome ε α
  | .ok a => .ok a
  | .error e => .error e

/-- `Git::checkout_branch`: `self.repo.as_ref().unwrap()` aborts when the
handle was never initialized; otherwise runs on the open repository. -/
def Git.checkout_branch (g : Git) (branch_name : String) :
    POutcome GitError Unit × Git :=
  match g.repo with
  | none => (.panic, g)
  | some r =>
    let (res, r') := r.checkout_branch branch_name
    (exceptToP res, { g with repo := some r' })

/-- `Git::add`: unwraps the handle, then stages `README.md`. -/
def Git.add (g : Git) : POutcome GitError Unit × Git :=
  match g.repo with
  | none => (.panic, g)
  | some r =>
    let (res, r') := r.add
    (exceptToP res, { g with repo := some r' })

/-- `Git::commit`: unwraps the handle, then builds the commit. -/
def Git.commit (g : Git) (subject : String) : POutcome GitError Nat × Git :=
  match g.repo with
  | none => (.panic, g)
  | some r =>
    let (res, r') := r.commitOp subject
    (exceptToP res, { g with repo := some r' })

/-- `Git::push`: unwraps the handle, then pushes through `with_credentials`. -/
def Git.push (g : Git) (branch_name : String) (transport : List Challenge)
    (accept : Cred → Bool) : POutcome GitError Unit × List String :=
  match g.repo with
  | none => (.panic, [])
  | some r => r.pushOp g.ssh_key branch_name transport accept

/-! ### Concrete fixtures (mirroring the repository set up by the source's
own `repo_init` test helper: one initial commit `initial-msg` on `main`,
`user.name`/`user.email` configured, a remote `origin`). -/

/-- A configuration whose credential helper yields nothing. -/
def emptyConfig : Config := ⟨fun _ _ => none⟩

/-- A configuration whose credential helper yields a username/password pair. -/
def helperConfig : Config := ⟨fun _ _ => some ("helper-user", "helper-pass")⟩

/-- The configured identity of the sample repository. -/
def sampleSig : Sig := ⟨"some-name", "some-email"⟩

/-- The initial commit of the sample repository. -/
def initialCommit : CommitObj :=
  { tree := [], parents := [], message := "initial-msg",
    author := sampleSig, committer := sampleSig }

/-- A well-formed open repository with one commit on `main`. -/
def sampleRepo : Repo :=
  { objects := [initialCommit]
    branches := [("refs/heads/main", 0)]
    headRef := "refs/heads/main"
    index := []
    workTree := []
    sig := some sampleSig
    remotes := ["origin"]
    cfg := helperConfig
    branchFault := none }

/-- An initialized handle on the sample repository. -/
def sampleGit : Git := { repo := some sampleRepo, ssh_key := "id_rsa" }

/-- An uninitialized handle (no successful `init`). -/
def closedGit : Git := { repo := none, ssh_key := "id_rsa" }

/-- A challenge allowing `[SSH_KEY, USER_PASS_PLAINTEXT, DEFAULT]` with a
username supplied. -/
def c1Challenge : Challenge :=
  { url := "https://example.com/repo.git", username := some "git",
    allowed := { username := false, ssh_key := true,
                 user_pass_plaintext := true, default_cred := true } }

/-! ### One-shot structure of the credential callback -/

/-- The outcome is a produced SSH-key credential. -/
def isSsh : POutcome GitError Cred → Bool
  | .ok (Cred.sshKey _ _) => true
  | _ => false

/-- The outcome is a produced helper (username/password) credential. -/
def isHelper : POutcome GitError Cred → Bool
  | .ok (Cred.userpassPlaintext _ _) => true
  | _ => false

/-- The outcome is a produced default credential. -/
def isDefault : POutcome GitError Cred → Bool
  | .ok Cred.defaultCred => true
  | _ => false

/-- One-shot structure of the callback, per method: once a method's flag is
set it stays set and the method is never produced again, and producing a
method leaves its flag set. -/
theorem credCallback_flag_spec (key : String) (cfg : Config) (st : Flags)
    (ch : Challenge) :
    (st.tried_sshkey = true → ((credCallback key cfg st ch).1.tried_sshkey = true ∧
        isSsh (credCallback key cfg st ch).2 = false)) ∧
    (isSsh (credCallback key cfg st ch).2 = true →
        (credCallback key cfg st ch).1.tried_sshkey = true) ∧
    (st.tried_cred_helper = true → ((credCallback key cfg st ch).1.tried_cred_helper = true ∧
        isHelper (credCallback key cfg st ch).2 = false)) ∧
    (isHelper (credCallback key cfg st ch).2 = true →
        (credCallback key cfg st ch).1.tried_cred_helper = true) ∧
    (st.tried_default = true → ((credCallback key cfg st ch).1.tried_default = true ∧
        isDefault (credCallback key cfg st ch).2 = false)) ∧
    (isDefault (credCallback key cfg st ch).2 = true →
        (credCallback key cfg st ch).1.tried_default = true) := by
  rcases ch with ⟨url, username, ⟨au, ask, aup, ad⟩⟩
  rcases st with ⟨ts, tc, td⟩
  simp only [credCallback, Cred.credential_helper]
  rcases hcf : cfg.helper url username with _ | ⟨u, p⟩ <;>
    cases username <;> cases au <;> cases ask <;> cases aup <;> cases ad <;>
    cases ts <;> cases tc <;> cases td <;>
    simp [hcf, isSsh, isHelper, isDefault]

/-- A method guarded by a one-shot flag is produced at most once along any
challenge trace: once its flag is set, the trace contains no further
production of it, and from any state it is produced at most once. -/
theorem one_shot_countP (key : String) (cfg : Config)
    (p : POutcome GitError Cred → Bool) (flag : Flags → Bool)
    (mono : ∀ st ch, flag st = true → flag (credCallback key cfg st ch).1 = true)
    (sets : ∀ st ch, p (credCallback key cfg st ch).2 = true →
      flag (credCallback key cfg st ch).1 = true)
    (blocks : ∀ st ch, flag st = true → p (credCallback key cfg st ch).2 = false) :
    (∀ (cs : List Challenge) (st : Flags), flag st = true →
        (runNegotiator key cfg st cs).countP p = 0) ∧
    (∀ (cs : List Challenge) (st : Flags),
        (runNegotiator key cfg st cs).countP p ≤ 1) := by
  have zero : ∀ (cs : List Challenge) (st : Flags), flag st = true →
      (runNegotiator key cfg st cs).countP p = 0 := by
    intro cs
    induction cs with
    | nil => intro st _; simp [runNegotiator]
    | cons ch rest ih =>
      intro st h
      simp only [runNegotiator, List.countP_cons]
      rw [ih _ (mono st ch h)]
      simp [blocks st ch h]
  refine ⟨zero, ?_⟩
  intro cs
  induction cs with
  | nil => intro st; simp [runNegotiator]
  | cons ch rest ih =>
    intro st
    simp only [runNegotiator, List.countP_cons]
    by_cases hp : p (credCallback key cfg st ch).2 = true
    · rw [zero rest _ (sets st ch hp), hp]
      simp
    · simp only [Bool.not_eq_true] at hp
      rw [hp]
      simpa using ih (credCallback key cfg st ch).1

/-! ### Small facts about association-list references -/

theorem lookup_append_of_none {β : Type} (k : String) (l1 l2 : List (String × β))
    (h : l1.lookup k = none) : (l1 ++ l2).lookup k = l2.lookup k := by
  induction l1 with
  | nil => simp
  | cons p rest ih =>
    cases p with
    | mk pk pv =>
      by_cases hk : k = pk
      · subst hk
        simp [List.lookup] at h
      · have hk' : (k == pk) = false := beq_eq_false_iff_ne.mpr hk
        simp only [List.lookup, hk'] at h
        simp only [List.cons_append, List.lookup, hk']
        exact ih h

theorem countP_eq_zero_of_lookup_none {β : Type} (k : String)
    (l : List (String × β)) (h : l.lookup k = none) :
    l.countP (fun p => p.1 == k) = 0 := by
  induction l with
  | nil => simp
  | cons p rest ih =>
    cases p with
    | mk pk pv =>
      by_cases hk : k = pk
      · subst hk
        simp [List.lookup] at h
      · have hk1 : (k == pk) = false := beq_eq_false_iff_ne.mpr hk
        have hk2 : (pk == k) = false :=
          beq_eq_false_iff_ne.mpr (fun he => hk he.symm)
        simp only [List.lookup, hk1] at h
        rw [List.countP_cons]
        simp [hk2, ih h]

theorem one_le_countP_of_lookup_some {β : Type} (k : String)
    (l : List (String × β)) (v : β) (h : l.lookup k = some v) :
    1 ≤ l.countP (fun p => p.1 == k) := by
  induction l with
  | nil => simp at h
  | cons p rest ih =>
    cases p with
    | mk pk pv =>
      rw [List.countP_cons]
      by_cases hk : k = pk
      · subst hk
        have : (k == k) = true := by simp
        simp [this]
      · have hk1 : (k == pk) = false := beq_eq_false_iff_ne.mpr hk
        simp only [List.lookup, hk1] at h
        have := ih h
        omega

theorem lookup_updateRef_self (bs : List (String × Nat)) (name : String)
    (oid : Nat) (h : (bs.lookup name).isSome) :
    (updateRef bs name oid).lookup name = some oid := by
  induction bs with
  | nil => simp at h
  | cons p rest ih =>
    cases p with
    | mk pk pv =>
      by_cases hk : pk = name
      · subst hk
        simp [updateRef, List.lookup]
      · have hk1 : (pk == name) = false := beq_eq_false_iff_ne.mpr hk
        have hk2 : (name == pk) = false :=
          beq_eq_false_iff_ne.mpr (fun he => hk he.symm)
        simp only [List.lookup, hk2] at h
        simp only [updateRef, List.map, hk1, Bool.cond_false, List.lookup, hk2]
        exact ih h

theorem getElem?_append_length {α : Type} (l : List α) (a : α) :
    (l ++ [a])[l.length]? = some a := by
  induction l with
  | nil => rfl
  | cons x rest ih => simp [ih]

/-! ### Success shape of `checkout_branch` -/

/-- The tail of `checkout_branch` when `refs/heads/<name>` resolves to a
commit present in the object database: it checks out that commit's tree
and repoints HEAD at the refname. -/
theorem checkoutBranchTail_spec (r : Repo) (b : String) (o : Nat) (c : CommitObj)
    (hex : r.branches.lookup ("refs/heads/" ++ b) = some o)
    (hoc : r.objects[o]? = some c) :
    r.checkoutBranchTail b =
      (.ok (), { r with workTree := c.tree, headRef := "refs/heads/" ++ b }) := by
  simp [Repo.checkoutBranchTail, Repo.revparse_single, Repo.checkout_tree,
    Repo.set_head, hex, hoc]

/-- `checkout_branch` when the branch already exists and resolves: the
`(Reference, Exists)` creation failure is swallowed and the call succeeds,
leaving the branch list untouched. -/
theorem checkout_branch_existing (r : Repo) (b : String) (h0 o : Nat)
    (c0 c : CommitObj)
    (hhead : r.branches.lookup r.headRef = some h0)
    (hc0 : r.objects[h0]? = some c0)
    (hex : r.branches.lookup ("refs/heads/" ++ b) = some o)
    (hoc : r.objects[o]? = some c) :
    r.checkout_branch b =
      (.ok (), { r with workTree := c.tree, headRef := "refs/heads/" ++ b }) := by
  have htail := checkoutBranchTail_spec r b o c hex hoc
  simp [Repo.checkout_branch, Repo.head, hhead, Repo.findCommit, hc0,
    Repo.branch, hex, branchExistsErr, htail]

/-- `checkout_branch` when the branch does not yet exist and no
environmental failure is injected: the branch is created at HEAD's commit,
checked out, and HEAD is repointed. -/
theorem checkout_branch_fresh (r : Repo) (b : String) (h0 : Nat) (c0 : CommitObj)
    (hhead : r.branches.lookup r.headRef = some h0)
    (hc0 : r.objects[h0]? = some c0)
    (hnone : r.branches.lookup ("refs/heads/" ++ b) = none)
    (hfault : r.branchFault = none) :
    r.checkout_branch b =
      (.ok (),
        { r with
            branches := r.branches ++ [("refs/heads/" ++ b, h0)]
            workTree := c0.tree
            headRef := "refs/heads/" ++ b }) := by
  have hex' : (r.branches ++ [("refs/heads/" ++ b, h0)]).lookup ("refs/heads/" ++ b)
      = some h0 := by
    rw [lookup_append_of_none _ _ _ hnone]
    simp [List.lookup]
  have htail := checkoutBranchTail_spec
    { r with branches := r.branches ++ [("refs/heads/" ++ b, h0)] } b h0 c0 hex' hc0
  rw [hfault] at htail
  simp [Repo.checkout_branch, Repo.head, hhead, Repo.findCommit, hc0,
    Repo.branch, hnone, hfault, htail]
  try rfl

/-! ### Claim theorems -/

/-- C1: within a single push call the negotiator attempts each method at
most once, in the fixed order SSH key → credential helper → default: over
a challenge sequence allowing `[SSH_KEY, USER_PASS, DEFAULT]` with every
produced credential rejected by the remote, the callback's trace is the
SSH-key credential, then the helper credential, then the default
credential, and the fourth invocation returns the all-methods-exhausted
error ("invoked exactly 3 times before returning it"); and over every
challenge sequence started from fresh flags, each one-shot method is
produced at most once (no method flag lets its method through twice).
Run on the initialized handle, the push itself reports the exhaustion
error. -/
theorem claim_C1_negotiator_order_and_one_shot :
    (runNegotiator "id_rsa" helperConfig Flags.fresh (List.replicate 4 c1Challenge) =
      [.ok (Cred.sshKey "git" "id_rsa"),
       .ok (Cred.userpassPlaintext "helper-user" "helper-pass"),
       .ok Cred.defaultCred,
       .error (GitError.from_str "No authentication method succeeded")])
  ∧ (∀ (key : String) (cfg : Config) (cs : List Challenge),
      (runNegotiator key cfg Flags.fresh cs).countP isSsh ≤ 1 ∧
      (runNegotiator key cfg Flags.fresh cs).countP isHelper ≤ 1 ∧
      (runNegotiator key cfg Flags.fresh cs).countP isDefault ≤ 1)
  ∧ ((Git.push sampleGit "ideas" (List.replicate 4 c1Challenge) (fun _ => false)).1 =
      .error (GitError.from_str "No authentication method succeeded")) := by
  refine ⟨by rfl, ?_, by rfl⟩
  intro key cfg cs
  refine ⟨?_, ?_, ?_⟩
  · exact (one_shot_countP key cfg isSsh (fun st => st.tried_sshkey)
      (fun st ch h => ((credCallback_flag_spec key cfg st ch).1 h).1)
      (fun st ch h => (credCallback_flag_spec key cfg st ch).2.1 h)
      (fun st ch h => ((credCallback_flag_spec key cfg st ch).1 h).2)).2 cs Flags.fresh
  · exact (one_shot_countP key cfg isHelper (fun st => st.tried_cred_helper)
      (fun st ch h => ((credCallback_flag_spec key cfg st ch).2.2.1 h).1)
      (fun st ch h => (credCallback_flag_spec key cfg st ch).2.2.2.1 h)
      (fun st ch h => ((credCallback_flag_spec key cfg st ch).2.2.1 h).2)).2 cs Flags.fresh
  · exact (one_shot_countP key cfg isDefault (fun st => st.tried_default)
      (fun st ch h => ((credCallback_flag_spec key cfg st ch).2.2.2.2.1 h).1)
      (fun st ch h => (credCallback_flag_spec key cfg st ch).2.2.2.2.2 h)
      (fun st ch h => ((credCallback_flag_spec key cfg st ch).2.2.2.2.1 h).2)).2 cs Flags.fresh

/-- C2: on every challenge whose allowed methods include `USERNAME`
("a username is required") while none was supplied, the callback fails
immediately with the missing-username error, leaves every one-shot flag
exactly as it was (for every flag state, i.e. the check runs first on
every challenge, before any method branch), and does not attempt SSH-key
authentication. -/
theorem claim_C2_missing_username_first (key : String) (cfg : Config)
    (st : Flags) (ch : Challenge) (hreq : ch.allowed.username = true)
    (_hnone : ch.username = none) :
    credCallback key cfg st ch =
      (st, .error (GitError.from_str "No username specified in remote URL")) := by
  simp [credCallback, hreq]

/-- Witness for C2 at a concrete challenge. -/
theorem claim_C2_witness :
    credCallback "id_rsa" emptyConfig Flags.fresh
      { url := "https://example.com/repo.git", username := none,
        allowed := { username := true, ssh_key := true,
                     user_pass_plaintext := true, default_cred := true } } =
      (Flags.fresh, .error (GitError.from_str "No username specified in remote URL")) :=
  claim_C2_missing_username_first "id_rsa" emptyConfig Flags.fresh _ rfl rfl

/-- C9: when a challenge allows SSH-key authentication, the SSH flag is
still unset and the challenge carries no username, the callback aborts the
process (`username.unwrap()` on `None`) instead of returning an error
value to the transport. -/
theorem claim_C9_ssh_without_username_aborts (key : String) (cfg : Config)
    (st : Flags) (ch : Challenge) (hu : ch.allowed.username = false)
    (hs : ch.allowed.ssh_key = true) (hf : st.tried_sshkey = false)
    (hn : ch.username = none) :
    (credCallback key cfg st ch).2 = POutcome.panic := by
  simp [credCallback, hu, hs, hf, hn]

/-- Witness for C9 at a concrete challenge. -/
theorem claim_C9_witness :
    (credCallback "id_rsa" emptyConfig Flags.fresh
      { url := "https://example.com/repo.git", username := none,
        allowed := { username := false, ssh_key := true,
                     user_pass_plaintext := true, default_cred := true } }).2 =
      POutcome.panic :=
  claim_C9_ssh_without_username_aborts "id_rsa" emptyConfig Flags.fresh _
    rfl rfl rfl rfl

/-- C3 counterexample: on an uninitialized handle, checkout/add/commit/push
abort the process (`self.repo.as_ref().unwrap()` on `None`) — they do not
return a `NotInitialized` (or any other) error value. -/
theorem claim_C3_counterexample :
    (Git.checkout_branch closedGit "ideas").1 = POutcome.panic ∧
    (Git.add closedGit).1 = POutcome.panic ∧
    (Git.commit closedGit "subject").1 = POutcome.panic ∧
    (Git.push closedGit "ideas" [] (fun _ => true)).1 = POutcome.panic :=
  ⟨rfl, rfl, rfl, rfl⟩

/-- C3 amended: every operation of the handle other than `open` (checkout
of a branch, staging, commit, push), invoked before a successful
`open(path)`, aborts the process by unwrapping the absent repository
handle, rather than succeeding or returning an error value. -/
theorem claim_C3_before_open_aborts (g : Git) (b s : String)
    (transport : List Challenge) (accept : Cred → Bool) (h : g.repo = none) :
    (Git.checkout_branch g b).1 = POutcome.panic ∧
    (Git.add g).1 = POutcome.panic ∧
    (Git.commit g s).1 = POutcome.panic ∧
    (Git.push g b transport accept).1 = POutcome.panic := by
  simp [Git.checkout_branch, Git.add, Git.commit, Git.push, h]

/-- Witness for the amended C3 at the concrete uninitialized handle. -/
theorem claim_C3_witness :
    (Git.checkout_branch closedGit "main").1 = POutcome.panic ∧
    (Git.add closedGit).1 = POutcome.panic ∧
    (Git.commit closedGit "s").1 = POutcome.panic ∧
    (Git.push closedGit "main" [] (fun _ => false)).1 = POutcome.panic :=
  claim_C3_before_open_aborts closedGit "main" "s" [] (fun _ => false) rfl

/-- C10: `init` is atomic in the handle state: when opening the repository
at the given path fails, the whole handle (in particular its `repo` field,
`None` before any successful open) is exactly as before the call, and a
successful open is the only transition that sets the `repo` field. -/
theorem claim_C10_init_atomic (g : Git) (fs : String → Except GitError Repo)
    (p : String) :
    (∀ e, fs p = .error e → Git.init g fs p = (.error e, g)) ∧
    (∀ repo, fs p = .ok repo →
      Git.init g fs p = (.ok (), { g with repo := some repo })) := by
  constructor
  · intro e he; simp [Git.init, he]
  · intro repo hr; simp [Git.init, hr]

/-- The filesystem seen by `Repository::open` when the path holds no
repository. -/
def missingFs : String → Except GitError Repo :=
  fun _ => .error (GitError.from_str "could not find repository")

/-- Witness for C10: a failing open leaves the uninitialized handle
untouched. -/
theorem claim_C10_witness :
    Git.init closedGit missingFs "/tmp/nowhere" =
      (.error (GitError.from_str "could not find repository"), closedGit) :=
  (claim_C10_init_atomic closedGit missingFs "/tmp/nowhere").1 _ rfl

/-- A repository with zero commits (fresh `git init`: no objects, an unborn
`main`). -/
def emptyRepo : Repo :=
  { objects := []
    branches := []
    headRef := "refs/heads/main"
    index := []
    workTree := []
    sig := some sampleSig
    remotes := ["origin"]
    cfg := emptyConfig
    branchFault := none }

/-- An initialized handle on the zero-commit repository. -/
def emptyGit : Git := { repo := some emptyRepo, ssh_key := "id_rsa" }

/-- An environmental branch-creation failure that is not the
`(Reference, Exists)` case. -/
def diskErr : GitError :=
  { cls := .generic, code := .generic,
    message := "failed to write reference: input/output error" }

/-- The sample repository with a branch-creation fault injected. -/
def faultRepo : Repo := { sampleRepo with branchFault := some diskErr }

/-- An initialized handle on the faulty sample repository. -/
def faultGit : Git := { repo := some faultRepo, ssh_key := "id_rsa" }

/-- C4: on an open repository with at least one commit (HEAD resolves to a
commit `h0`) and a configured signature, `add()` then `commit(subject)`
returns the new commit's object identifier (`r.objects.length`, the key it
is stored under in the content-addressed object database), and the stored
commit has exactly the staged tree, the single parent `h0` (the commit
HEAD pointed to immediately before the call), message `subject`, author
and committer both equal to the configured signature; HEAD's symbolic
target is unchanged and now resolves to the new commit. -/
theorem claim_C4_add_commit (g : Git) (r : Repo) (subject : String) (s : Sig)
    (h0 : Nat) (c0 : CommitObj)
    (hg : g.repo = some r)
    (hsig : r.sig = some s)
    (hhead : r.branches.lookup r.headRef = some h0)
    (hc0 : r.objects[h0]? = some c0) :
    ∃ r2 : Repo,
      Git.commit (Git.add g).2 subject =
        (.ok r.objects.length, { g with repo := some r2 }) ∧
      r2.objects[r.objects.length]? =
        some { tree := (Repo.add r).2.index, parents := [h0], message := subject,
               author := s, committer := s } ∧
      r2.headRef = r.headRef ∧
      r2.head = Except.ok r.objects.length := by
  refine ⟨{ (Repo.add r).2 with
      objects := r.objects ++
        [{ tree := (Repo.add r).2.index, parents := [h0], message := subject,
           author := s, committer := s }]
      branches := updateRef r.branches r.headRef r.objects.length }, ?_, ?_, ?_, ?_⟩
  · simp [Git.add, hg, Git.commit, Repo.commitOp, Repo.signature, hsig,
      find_last_commit, Repo.head, hhead, hc0, Repo.add, exceptToP]
    try rfl
  · exact getElem?_append_length _ _
  · rfl
  · have hs : (r.branches.lookup r.headRef).isSome := by simp [hhead]
    simp [Repo.head, Repo.add,
      lookup_updateRef_self r.branches r.headRef r.objects.length hs]

/-- Witness for C4 on the sample repository: the new commit gets id 1 and
carries the staged tree, parent 0, the subject and the configured
signature. -/
theorem claim_C4_witness :
    (Git.commit (Git.add sampleGit).2 "some-subject").1 = POutcome.ok 1 ∧
    ((Git.commit (Git.add sampleGit).2 "some-subject").2.repo.map
      (fun r2 => r2.objects[1]?)) =
      some (some { tree := ["README.md"], parents := [0], message := "some-subject",
                   author := sampleSig, committer := sampleSig }) := by
  obtain ⟨r2, h1, h2, h3, h4⟩ :=
    claim_C4_add_commit sampleGit sampleRepo "some-subject" sampleSig 0
      initialCommit rfl rfl rfl rfl
  rw [h1]
  refine ⟨rfl, ?_⟩
  simpa using h2

/-- C5: `checkout_branch` is idempotent: on an open repository with at
least one commit (and no injected branch-creation fault; any pre-existing
branch of the requested name resolving to a commit in the object
database), two consecutive calls with the same name both succeed, after
each call HEAD's symbolic target is `refs/heads/<name>`, and after each
call exactly one branch reference of that name exists. -/
theorem claim_C5_checkout_idempotent (g : Git) (r : Repo) (b : String)
    (h0 : Nat) (c0 : CommitObj)
    (hg : g.repo = some r)
    (hhead : r.branches.lookup r.headRef = some h0)
    (hc0 : r.objects[h0]? = some c0)
    (hfault : r.branchFault = none)
    (hres : ∀ o, r.branches.lookup ("refs/heads/" ++ b) = some o →
      (r.objects[o]?).isSome)
    (hcount : r.branches.countP (fun p => p.1 == "refs/heads/" ++ b) ≤ 1) :
    ∃ r1 r2 : Repo,
      Git.checkout_branch g b = (.ok (), { g with repo := some r1 }) ∧
      Git.checkout_branch { g with repo := some r1 } b =
        (.ok (), { g with repo := some r2 }) ∧
      r1.headRef = "refs/heads/" ++ b ∧
      r2.headRef = "refs/heads/" ++ b ∧
      r1.branches.countP (fun p => p.1 == "refs/heads/" ++ b) = 1 ∧
      r2.branches.countP (fun p => p.1 == "refs/heads/" ++ b) = 1 := by
  cases hex : r.branches.lookup ("refs/heads/" ++ b) with
  | some o =>
    obtain ⟨c, hoc⟩ := Option.isSome_iff_exists.mp (hres o hex)
    have h1 := checkout_branch_existing r b h0 o c0 c hhead hc0 hex hoc
    have hhead1 :
        (({ r with workTree := c.tree, headRef := "refs/heads/" ++ b } : Repo)
          |>.branches.lookup ("refs/heads/" ++ b)) = some o := hex
    have h2 := checkout_branch_existing
      { r with workTree := c.tree, headRef := "refs/heads/" ++ b } b o o c c
      hhead1 hoc hhead1 hoc
    have hcnt : r.branches.countP (fun p => p.1 == "refs/heads/" ++ b) = 1 := by
      have := one_le_countP_of_lookup_some _ _ _ hex
      omega
    refine ⟨{ r with workTree := c.tree, headRef := "refs/heads/" ++ b },
      { r with workTree := c.tree, headRef := "refs/heads/" ++ b },
      ?_, ?_, rfl, rfl, hcnt, hcnt⟩
    · simp [Git.checkout_branch, hg, h1, exceptToP]
      try rfl
    · simp [Git.checkout_branch, h2, exceptToP]
      try rfl
  | none =>
    have h1 := checkout_branch_fresh r b h0 c0 hhead hc0 hex hfault
    have hex1 : ((r.branches ++ [("refs/heads/" ++ b, h0)]).lookup
        ("refs/heads/" ++ b)) = some h0 := by
      rw [lookup_append_of_none _ _ _ hex]
      simp [List.lookup]
    have h2 := checkout_branch_existing
      { r with
          branches := r.branches ++ [("refs/heads/" ++ b, h0)]
          workTree := c0.tree
          headRef := "refs/heads/" ++ b } b h0 h0 c0 c0
      hex1 hc0 hex1 hc0
    have hcnt : ((r.branches ++ [("refs/heads/" ++ b, h0)]).countP
        (fun p => p.1 == "refs/heads/" ++ b)) = 1 := by
      rw [List.countP_append, countP_eq_zero_of_lookup_none _ _ hex]
      simp
    refine ⟨{ r with
        branches := r.branches ++ [("refs/heads/" ++ b, h0)]
        workTree := c0.tree
        headRef := "refs/heads/" ++ b },
      { r with
        branches := r.branches ++ [("refs/heads/" ++ b, h0)]
        workTree := c0.tree
        headRef := "refs/heads/" ++ b },
      ?_, ?_, rfl, rfl, hcnt, hcnt⟩
    · simp [Git.checkout_branch, hg, h1, exceptToP]
      try rfl
    · simp [Git.checkout_branch, h2, exceptToP]
      try rfl

/-- Witness for C5: the double checkout of the new branch `ideas` on the
sample repository succeeds and repoints HEAD at `refs/heads/ideas`. -/
theorem claim_C5_witness :
    (Git.checkout_branch sampleGit "ideas").1 = POutcome.ok () ∧
    ((Git.checkout_branch sampleGit "ideas").2.repo.map Repo.headRef) =
      some "refs/heads/ideas" := by
  have hnone : sampleRepo.branches.lookup ("refs/heads/" ++ "ideas") = none := rfl
  obtain ⟨r1, r2, h1, h2, h3, h4, h5, h6⟩ :=
    claim_C5_checkout_idempotent sampleGit sampleRepo "ideas" 0 initialCommit
      rfl rfl rfl rfl
      (fun o ho => Option.noConfusion (hnone.symm.trans ho))
      (by decide)
  rw [h1]
  simp [h3]

/-- C6: during `checkout_branch`, a branch-creation failure of class
`Reference` with code `Exists` (the branch already exists) is the only
error that is silently ignored — the call proceeds and succeeds — while a
creation failure with any other class/code is propagated to the caller
as the operation's error. -/
theorem claim_C6_only_exists_ignored (g : Git) (r : Repo) (b : String)
    (h0 : Nat) (c0 : CommitObj)
    (hg : g.repo = some r)
    (hhead : r.branches.lookup r.headRef = some h0)
    (hc0 : r.objects[h0]? = some c0) :
    (∀ e, r.branchFault = some e →
      r.branches.lookup ("refs/heads/" ++ b) = none →
      ¬(e.cls = ErrorClass.reference ∧ e.code = ErrorCode.exists') →
      (Git.checkout_branch g b).1 = .error e)
  ∧ (∀ o c, r.branches.lookup ("refs/heads/" ++ b) = some o →
      r.objects[o]? = some c →
      (Git.checkout_branch g b).1 = .ok ()) := by
  constructor
  · intro e hfault hnone hne
    have hcond : (e.cls == ErrorClass.reference && e.code == ErrorCode.exists')
        = false := by
      cases hcls : e.cls == ErrorClass.reference <;>
        cases hcode : e.code == ErrorCode.exists' <;>
        simp_all [beq_iff_eq]
    simp [Git.checkout_branch, hg, Repo.checkout_branch, Repo.head, hhead,
      Repo.findCommit, hc0, Repo.branch, hnone, hfault, hcond, exceptToP]
  · intro o c hex hoc
    have h1 := checkout_branch_existing r b h0 o c0 c hhead hc0 hex hoc
    simp [Git.checkout_branch, hg, h1, exceptToP]

/-- Witness for C6: an injected non-`Exists` creation failure on the
sample repository is propagated verbatim. -/
theorem claim_C6_witness :
    (Git.checkout_branch faultGit "ideas").1 = POutcome.error diskErr :=
  (claim_C6_only_exists_ignored faultGit faultRepo "ideas" 0 initialCommit
    rfl rfl rfl).1 diskErr rfl rfl (by decide)

/-- C7: on an open repository containing zero commits (empty object
database, hence no branch references and an unborn HEAD) with a
configured signature, `commit(subject)` fails with the reference-lookup
error from resolving HEAD (class `Reference`) and creates no commit — the
repository state is exactly as before. -/
theorem claim_C7_commit_zero_commits (g : Git) (r : Repo) (subject : String)
    (s : Sig) (hg : g.repo = some r) (hsig : r.sig = some s)
    (_hobjects : r.objects = []) (hbranches : r.branches = []) :
    Git.commit g subject = (.error unbornHeadErr, g) ∧
    unbornHeadErr.cls = ErrorClass.reference := by
  refine ⟨?_, rfl⟩
  have hhead : r.head = .error unbornHeadErr := by
    simp [Repo.head, hbranches]
  have hop : Repo.commitOp r subject = (.error unbornHeadErr, r) := by
    simp [Repo.commitOp, Repo.signature, hsig, find_last_commit, hhead]
  cases g with
  | mk gr key =>
    simp only [] at hg
    have : gr = some r := hg
    subst this
    simp [Git.commit, hop, exceptToP]

/-- Witness for C7 on the zero-commit repository. -/
theorem claim_C7_witness :
    Git.commit emptyGit "idea" = (.error unbornHeadErr, emptyGit) :=
  (claim_C7_commit_zero_commits emptyGit emptyRepo "idea" sampleSig
    rfl rfl rfl rfl).1

/-- C8: `push(branch_name)` looks up the remote named `origin` — failing
with the not-found remote-lookup error (and sending nothing) when it is
absent — and otherwise hands the transport exactly the single one-to-one
refspec `refs/heads/<name>:refs/heads/<name>`, with the push outcome
produced by the credential negotiator (fresh one-shot flags, the handle's
ssh key and the repository's config) bound as the transport's credential
callback. -/
theorem claim_C8_push_origin_refspec (g : Git) (r : Repo) (b : String)
    (transport : List Challenge) (accept : Cred → Bool)
    (hg : g.repo = some r) :
    (r.remotes.contains "origin" = false →
      Git.push g b transport accept = (.error remoteNotFoundErr, []))
  ∧ (r.remotes.contains "origin" = true →
      Git.push g b transport accept =
        (transportRun g.ssh_key r.cfg accept Flags.fresh transport,
         ["refs/heads/" ++ b ++ ":refs/heads/" ++ b]))
  ∧ remoteNotFoundErr.code = ErrorCode.notFound := by
  refine ⟨?_, ?_, rfl⟩
  · intro habs
    have habs' : ¬ "origin" ∈ r.remotes := by simpa using habs
    simp [Git.push, hg, Repo.pushOp, habs']
  · intro hpres
    have hpres' : "origin" ∈ r.remotes := by simpa using hpres
    simp [Git.push, hg, Repo.pushOp, hpres']

/-- Witness for C8: a push with no challenges on the sample repository
(which has an `origin` remote) succeeds and sends exactly the one-to-one
refspec. -/
theorem claim_C8_witness :
    Git.push sampleGit "ideas" [] (fun _ => false) =
      (POutcome.ok (), ["refs/heads/ideas:refs/heads/ideas"]) :=
  (claim_C8_push_origin_refspec sampleGit sampleRepo "ideas" [] (fun _ => false)
    rfl).2.1 rfl

end Eureka
